import Mathlib

/-!
Verification of the carnival-boilerplate scene files.

The repository holds three iterations of the same demo scene for the
Carnival / FCEngine WebVR framework:
  * src/scene.js part 1 (lines 1-474)  : the latest, component-based iteration;
  * src/scene.js part 2 (lines 476-931): the middle iteration (FCShapes based);
  * src/unnamed/part_000               : the earliest iteration.
JavaScript numbers are modelled as rationals where only arithmetic and
comparison occur, and as reals where trigonometry (angles) is involved.
Scene state that the claims touch (cursor component, player location, lamp
objects, lights-shown flag) is modelled as explicit records, and event-driven
mutation (collider callbacks, button-triggered teleports) as explicit state
passing over event lists.
-/

/-! ### Positions (JS objects like x, y, z) -/

/-- A 3-component position, as the JS objects with x, y, z fields. -/
structure Vec3 where
  x : ℚ
  y : ℚ
  z : ℚ
deriving DecidableEq, Repr

/-! ### The cursor component and the floor-collider callback

From src/scene.js lines 366-378: the collider callback receives a collision
record with a POI field and a 3-element collisionPoint, and mutates the
cursor component fetched via getObjectByLabel.  The component wraps a
drawable; the drawable carries the position and a hidden flag, and the
component itself carries a separate hidden field (set in the else branch). -/

/-- The drawable inside the cursor component: position plus hidden flag. -/
structure Drawable where
  pos : Vec3
  hidden : Bool
deriving DecidableEq, Repr

/-- The cursor component object: a wrapping hidden field and the drawable. -/
structure CursorComp where
  hidden : Bool
  drawable : Drawable
deriving DecidableEq, Repr

/-- A collision record passed to the floor collider callback: the POI scalar
and the collision point (given in the source as a 3-element array). -/
structure Collision where
  POI : ℚ
  collisionPoint : Vec3
deriving DecidableEq, Repr

/-- The floor-collider callback of src/scene.js lines 366-377.  When
collision.POI < 0 it clears the drawable's hidden flag and copies the
collision point into the drawable's position; otherwise it only sets the
hidden field of the wrapping component object to true. -/
def moveCursorToCollisionPoint (collision : Collision) (cursor : CursorComp) :
    CursorComp :=
  if collision.POI < 0 then
    { cursor with drawable := { hidden := false, pos := collision.collisionPoint } }
  else
    { cursor with hidden := true }

/-! ### Teleportation (src/scene.js lines 184-187)

teleportUserToCursor looks up the object labelled cursor and passes
curs.drawable.pos to movePlayerTo; movePlayerTo is the engine call that sets
the play-area anchor (the player location).  We model the part of the scene
state these operations touch: the cursor component and the player position. -/

/-- The slice of scene state read and written by the collider callback and
by teleportUserToCursor: the object labelled cursor, and the player
location that movePlayerTo sets. -/
structure TeleState where
  cursor : CursorComp
  playerPos : Vec3
deriving DecidableEq, Repr

/-- One collision event delivered to the floor collider: the callback
rewrites the cursor component inside the scene state. -/
def applyCollision (collision : Collision) (s : TeleState) : TeleState :=
  { s with cursor := moveCursorToCollisionPoint collision s.cursor }

/-- Deliver a sequence of collision events to the floor collider, in order. -/
def processEvents (evs : List Collision) (s : TeleState) : TeleState :=
  evs.foldl (fun t c => applyCollision c t) s

/-- Scene.prototype.teleportUserToCursor (src/scene.js lines 184-187): the
player location is set to the cursor drawable's position. -/
def teleportUserToCursor (s : TeleState) : TeleState :=
  { s with playerPos := s.cursor.drawable.pos }

/-- The last collision point recorded by the callback over an event list:
only events with POI < 0 record their collision point, later ones
overriding earlier ones. -/
def lastRecorded (evs : List Collision) : Option Vec3 :=
  evs.foldl (fun acc c => if c.POI < 0 then some c.collisionPoint else acc) none

/-- The cuboid cursor of the latest iteration is constructed at the hidden
under-floor position given by the helper at src/scene.js line 219. -/
def hiddenPosLatest : Vec3 := ⟨0, -10, 0⟩

/-- The hidden under-floor position of the middle iteration
(src/scene.js line 749). -/
def hiddenPosMiddle : Vec3 := ⟨0, -100, 0⟩

/-- The hidden under-floor position of the earliest iteration
(src/unnamed/part_000 line 205). -/
def hiddenPosEarliest : Vec3 := ⟨0, -1, 0⟩

/-! Auxiliary lemmas linking processEvents to lastRecorded. -/

lemma applyCollision_cursor_pos (c : Collision) (s : TeleState) :
    (applyCollision c s).cursor.drawable.pos =
      if c.POI < 0 then c.collisionPoint else s.cursor.drawable.pos := by
  unfold applyCollision moveCursorToCollisionPoint
  split <;> rfl

lemma processEvents_cursor_pos (evs : List Collision) (s : TeleState) :
    (processEvents evs s).cursor.drawable.pos =
      evs.foldl (fun q c => if c.POI < 0 then c.collisionPoint else q)
        s.cursor.drawable.pos := by
  induction evs generalizing s with
  | nil => rfl
  | cons c evs ih =>
      simp only [processEvents, List.foldl_cons] at *
      rw [ih (applyCollision c s), applyCollision_cursor_pos]

lemma foldl_last_some (evs : List Collision) (r p : Vec3)
    (h : evs.foldl
        (fun acc c => if c.POI < 0 then some c.collisionPoint else acc)
        (some r) = some p) :
    evs.foldl (fun q c => if c.POI < 0 then c.collisionPoint else q) r = p := by
  induction evs generalizing r with
  | nil => simpa using h
  | cons c evs ih =>
      simp only [List.foldl_cons] at h ⊢
      by_cases hc : c.POI < 0
      · simp only [hc, if_pos] at h ⊢
        exact ih _ h
      · simp only [hc, if_neg, if_false] at h ⊢
        exact ih _ h

lemma foldl_last_of_lastRecorded (evs : List Collision) (p : Vec3)
    (h : lastRecorded evs = some p) (q : Vec3) :
    evs.foldl (fun r c => if c.POI < 0 then c.collisionPoint else r) q = p := by
  unfold lastRecorded at h
  induction evs generalizing q with
  | nil => simp at h
  | cons c evs ih =>
      simp only [List.foldl_cons] at h ⊢
      by_cases hc : c.POI < 0
      · simp only [hc, if_pos] at h ⊢
        exact foldl_last_some evs _ p h
      · simp only [hc, if_neg, if_false] at h ⊢
        exact ih h q

/-- C2: for every sequence of collision events followed by a teleport, the
player position equals the last cursor collision point recorded by the
floor-collider callback (teleportUserToCursor passes the cursor drawable's
position, last set by moveCursorToCollisionPoint, to movePlayerTo). -/
theorem c2_teleport_to_last_recorded (evs : List Collision) (s : TeleState)
    (p : Vec3) (h : lastRecorded evs = some p) :
    (teleportUserToCursor (processEvents evs s)).playerPos = p := by
  unfold teleportUserToCursor
  simp only [processEvents_cursor_pos]
  exact foldl_last_of_lastRecorded evs p h _

/-- Witness for C2: two collisions, the second recording point (1, 2, 3);
after a teleport the player stands at (1, 2, 3). -/
theorem c2_teleport_to_last_recorded_witness :
    (teleportUserToCursor (processEvents
        [⟨-1, ⟨4, 5, 6⟩⟩, ⟨-2, ⟨1, 2, 3⟩⟩]
        ⟨⟨false, ⟨hiddenPosLatest, false⟩⟩, ⟨0, 0, 0⟩⟩)).playerPos
      = ⟨1, 2, 3⟩ :=
  c2_teleport_to_last_recorded _ _ _ (by decide)

/-- C8: the floor-collider callback unhides the cursor drawable and moves it
to the collision point exactly when POI < 0; when POI >= 0 the drawable is
untouched and only the wrapping component's hidden field is set to true. -/
theorem c8_collider_callback_cases (collision : Collision) (cursor : CursorComp) :
    (collision.POI < 0 →
      (moveCursorToCollisionPoint collision cursor).drawable.hidden = false ∧
      (moveCursorToCollisionPoint collision cursor).drawable.pos
        = collision.collisionPoint ∧
      (moveCursorToCollisionPoint collision cursor).hidden = cursor.hidden) ∧
    (0 ≤ collision.POI →
      (moveCursorToCollisionPoint collision cursor).drawable = cursor.drawable ∧
      (moveCursorToCollisionPoint collision cursor).hidden = true) := by
  constructor
  · intro h
    unfold moveCursorToCollisionPoint
    rw [if_pos h]
    exact ⟨rfl, rfl, rfl⟩
  · intro h
    unfold moveCursorToCollisionPoint
    rw [if_neg (not_lt.mpr h)]
    exact ⟨rfl, rfl⟩

/-- Witness for C8: a hit below the plane (POI = -1) moves and unhides the
drawable; a hit with POI = 1 leaves the drawable alone and hides the
component. -/
theorem c8_collider_callback_cases_witness :
    ((moveCursorToCollisionPoint ⟨-1, ⟨7, 8, 9⟩⟩
        ⟨false, ⟨⟨0, 0, 0⟩, true⟩⟩).drawable.pos = ⟨7, 8, 9⟩) ∧
    ((moveCursorToCollisionPoint ⟨1, ⟨7, 8, 9⟩⟩
        ⟨false, ⟨⟨0, 0, 0⟩, true⟩⟩).hidden = true) :=
  ⟨((c8_collider_callback_cases ⟨-1, ⟨7, 8, 9⟩⟩
      ⟨false, ⟨⟨0, 0, 0⟩, true⟩⟩).1 (by norm_num)).2.1,
   ((c8_collider_callback_cases ⟨1, ⟨7, 8, 9⟩⟩
      ⟨false, ⟨⟨0, 0, 0⟩, true⟩⟩).2 (by norm_num)).2⟩

/-- C10: the cursor starts at the hidden under-floor position, which is
(0, -10, 0) in the latest iteration ((0, -100, 0) and (0, -1, 0) in the
middle and earliest ones); a teleport triggered before any floor collision
moves the player to that under-floor position. -/
theorem c10_teleport_before_collision (p0 : Vec3) (ch dh : Bool) :
    (teleportUserToCursor (processEvents []
        ⟨⟨ch, ⟨hiddenPosLatest, dh⟩⟩, p0⟩)).playerPos = hiddenPosLatest ∧
    hiddenPosLatest = ⟨0, -10, 0⟩ ∧
    hiddenPosMiddle = ⟨0, -100, 0⟩ ∧
    hiddenPosEarliest = ⟨0, -1, 0⟩ :=
  ⟨rfl, rfl, rfl, rfl⟩

/-! ### Degrees to radians (C9) and the revolve behavior (C3)

Angles enter trigonometry, so they are modelled over the reals. -/

/-- DEG of the later iterations (src/scene.js lines 28 and 500):
degrees times pi over 180. -/
noncomputable def DEG (deg : ℝ) : ℝ := deg * (Real.pi / 180)

/-- The DEG constant of the earliest iteration (src/unnamed/part_000
line 204): angles in degrees are divided by it. -/
noncomputable def DEGdivisor : ℝ := 360 / (2 * Real.pi)

/-- The y-orientation assigned by the revolve behavior attached to the
cursor (src/scene.js line 299 and src/unnamed/part_000 line 218):
Math.PI * 2 * (timePoint / 7000). -/
noncomputable def revolveY (timePoint : ℝ) : ℝ := Real.pi * 2 * (timePoint / 7000)

/-- C9: the two degree-to-radian encodings agree on every angle, and both
send the floor and raft x-orientation of 270 degrees to 3 pi / 2 radians. -/
theorem c9_deg_encodings_equivalent :
    (∀ d : ℝ, DEG d = d / DEGdivisor) ∧
    DEG 270 = 3 * Real.pi / 2 ∧
    (270 : ℝ) / DEGdivisor = 3 * Real.pi / 2 := by
  have hpi := Real.pi_ne_zero
  refine ⟨fun d => ?_, ?_, ?_⟩ <;>
    · simp only [DEG, DEGdivisor]
      field_simp
      ring

/-- Counterexample to C3: the value assigned by the revolve behavior does
not stay within [0, 2 pi): at timePoint = 7000 it is exactly 2 pi. -/
theorem c3_counterexample :
    revolveY 7000 = 2 * Real.pi ∧ ¬ revolveY 7000 < 2 * Real.pi := by
  have h : revolveY 7000 = 2 * Real.pi := by
    unfold revolveY
    rw [div_self (by norm_num : (7000 : ℝ) ≠ 0)]
    ring
  exact ⟨h, by rw [h]; exact lt_irrefl _⟩

/-- C3 (amended): the y-orientation assigned by the revolve behavior is a
strictly increasing function of timePoint that advances by exactly 2 pi
every 7000 ms (one revolution per 7000 ms); it is not reduced modulo 2 pi
by the behavior itself. -/
theorem c3_revolve_strict_mono_period :
    StrictMono revolveY ∧
    ∀ t : ℝ, revolveY (t + 7000) = revolveY t + 2 * Real.pi := by
  constructor
  · intro a b hab
    unfold revolveY
    have h2 : (0 : ℝ) < Real.pi * 2 := by positivity
    have h3 : a / 7000 < b / 7000 := by gcongr
    exact mul_lt_mul_of_pos_left h3 h2
  · intro t
    unfold revolveY
    field_simp
    ring

/-! ### switchLights (C4)

Scene.prototype.switchLights (src/scene.js lines 192-212; the middle
iteration's showLights at lines 725-745 is identical).  The JS line
  state = state || (state === undefined && !this.lightsShown)
yields the passed boolean when one is passed, and the negated lightsShown
flag when no argument is passed.  The method then stores the flag, removes
every object in group lamps, and, when the flag is set, builds one cuboid
lamp per light that carries both a diffuse and a position field, adds each
to the scene, and returns the list of lamps built (empty otherwise). -/

/-- A light definition from scene.lightPool: optional position (vec4) and
optional ambient, diffuse, specular colour vectors. -/
structure Light where
  position : Option (ℚ × ℚ × ℚ × ℚ)
  ambient : Option (ℚ × ℚ × ℚ)
  diffuse : Option (ℚ × ℚ × ℚ)
  specular : Option (ℚ × ℚ × ℚ)
deriving DecidableEq, Repr

/-- A scene object as far as switchLights is concerned: its position, its
texture colour (built from the light's diffuse colour) and its group label. -/
structure LampObj where
  pos : Vec3
  texColor : ℚ × ℚ × ℚ
  groupLabel : Option String
deriving DecidableEq, Repr

/-- The slice of scene state switchLights touches: the lightsShown flag, the
configured lights, and the scene's object list. -/
structure LightsState where
  lightsShown : Bool
  lights : List Light
  objects : List LampObj
deriving DecidableEq, Repr

/-- The JS defaulting line state = state || (state === undefined &&
!this.lightsShown): a passed boolean is used as is, no argument toggles. -/
def effectiveLightState (stateArg : Option Bool) (lightsShown : Bool) : Bool :=
  match stateArg with
  | some b => b
  | none => !lightsShown

/-- The SimpleCuboid lamp built for a qualifying light: positioned at the
light's position, textured from its diffuse colour, in group lamps. -/
def mkLamp (pos4 : ℚ × ℚ × ℚ × ℚ) (diff : ℚ × ℚ × ℚ) : LampObj :=
  { pos := ⟨pos4.1, pos4.2.1, pos4.2.2.1⟩
    texColor := diff
    groupLabel := some "lamps" }

/-- The lamps built by the loop: one per light having both diffuse and
position (the loop skips lights failing that test). -/
def lampsFor (lights : List Light) : List LampObj :=
  (lights.filterMap (fun l =>
    match l.diffuse, l.position with
    | some d, some p => some (mkLamp p d)
    | _, _ => none))

/-- Scene.prototype.switchLights (src/scene.js lines 192-212), returning the
updated scene state and the list the method returns. -/
def switchLights (stateArg : Option Bool) (s : LightsState) :
    LightsState × List LampObj :=
  let state := effectiveLightState stateArg s.lightsShown
  let kept := s.objects.filter (fun o => o.groupLabel ≠ some "lamps")
  if state then
    let lamps := lampsFor s.lights
    (⟨state, s.lights, kept ++ lamps⟩, lamps)
  else
    (⟨state, s.lights, kept⟩, [])

/-- The objects of a scene state that sit in the lamps group. -/
def lampsGroup (s : LightsState) : List LampObj :=
  s.objects.filter (fun o => o.groupLabel = some "lamps")

/-- The four lights configured in the latest iteration's constructor
(src/scene.js lines 120-140): the overhead white light and the red, green
and blue debug lights. -/
def sceneLights : List Light :=
  [ { position := some (0, 3, 1, 1)
      ambient := some (1/2, 1/2, 1/2)
      diffuse := some (7/10, 7/10, 6/10)
      specular := some (0, 0, 0) },
    { position := some (0, 2, 0, 0), ambient := none
      diffuse := some (8/10, 0, 0), specular := none },
    { position := some (2, 2, 0, 0), ambient := none
      diffuse := some (0, 8/10, 0), specular := none },
    { position := some (-2, 2, 0, 0), ambient := none
      diffuse := some (0, 0, 8/10), specular := none } ]

/-- Counterexample to C4: starting from lightsShown = true with the latest
iteration's lights, calling switchLights twice with no argument leaves four
lamp objects in the lamps group and returns a non-empty list. -/
theorem c4_counterexample :
    (switchLights none
        (switchLights none ⟨true, sceneLights, []⟩).1).2 ≠ [] ∧
    lampsGroup (switchLights none
        (switchLights none ⟨true, sceneLights, []⟩).1).1 ≠ [] := by
  constructor <;> decide

lemma filter_lamps_of_filter_non_lamps (l : List LampObj) :
    (l.filter (fun o => o.groupLabel ≠ some "lamps")).filter
      (fun o => o.groupLabel = some "lamps") = [] := by
  induction l with
  | nil => rfl
  | cons a l ih =>
      by_cases ha : a.groupLabel = some "lamps" <;>
        simp [List.filter_cons, ha, ih]

/-- C4 (amended): calling switchLights with no argument twice always
restores lightsShown to its starting value; when the starting value is
false (the constructor's initial state), the second call additionally
leaves the lamps group empty and returns the empty list. -/
theorem c4_double_toggle (s : LightsState) :
    (switchLights none (switchLights none s).1).1.lightsShown = s.lightsShown ∧
    (s.lightsShown = false →
      (switchLights none (switchLights none s).1).2 = [] ∧
      lampsGroup (switchLights none (switchLights none s).1).1 = []) := by
  constructor
  · cases hs : s.lightsShown <;>
      simp [switchLights, effectiveLightState, hs]
  · intro h
    refine ⟨?_, ?_⟩
    · simp [switchLights, effectiveLightState, h]
    · simp only [switchLights, effectiveLightState, h, Bool.not_false,
        if_true, Bool.not_true, Bool.false_eq_true, if_false, lampsGroup]
      exact filter_lamps_of_filter_non_lamps _

/-- Witness for C4 (amended): from the constructor state (lightsShown off,
no objects, the latest iteration's lights), two argument-free calls end
with the flag off, an empty lamps group and an empty returned list. -/
theorem c4_double_toggle_witness :
    (switchLights none (switchLights none
        ⟨false, sceneLights, []⟩).1).1.lightsShown = false ∧
    (switchLights none (switchLights none ⟨false, sceneLights, []⟩).1).2 = [] ∧
    lampsGroup (switchLights none
        (switchLights none ⟨false, sceneLights, []⟩).1).1 = [] :=
  ⟨(c4_double_toggle ⟨false, sceneLights, []⟩).1,
   ((c4_double_toggle ⟨false, sceneLights, []⟩).2 rfl).1,
   ((c4_double_toggle ⟨false, sceneLights, []⟩).2 rfl).2⟩

/-! ### The prerequisite-loading barrier (C5)

src/unnamed/part_000 lines 137-193 (identical in the middle iteration,
src/scene.js lines 658-714) build a readiness promise as
  new Promise(function (resolve, reject) -> begin
    ... push loads onto prereqPromises ...
    Promise.all(prereqPromises).then(function () -> begin resolve() end)
  end)
We model a settled-or-pending promise outcome, JS Promise.all over a list
of outcomes (rejecting with the first rejection, resolving with the value
list when all resolve, otherwise pending), and the wrapper above, whose
only settling path is the resolve call in the fulfillment handler. -/

/-- The eventual outcome of a JS promise: fulfilled with a value, rejected
with an error, or never settled. -/
inductive PResult (α : Type) where
  | resolved (val : α)
  | rejected (err : String)
  | pending
deriving DecidableEq, Repr

/-- JS Promise.all over the eventual outcomes of a list of promises: the
first rejection in the list wins, otherwise all must resolve, otherwise
the combined promise stays pending. -/
def promiseAll {α : Type} : List (PResult α) → PResult (List α)
  | [] => PResult.resolved []
  | p :: ps =>
    match p with
    | PResult.rejected e => PResult.rejected e
    | PResult.pending =>
        match promiseAll ps with
        | PResult.rejected e => PResult.rejected e
        | _ => PResult.pending
    | PResult.resolved v =>
        match promiseAll ps with
        | PResult.resolved vs => PResult.resolved (v :: vs)
        | PResult.rejected e => PResult.rejected e
        | PResult.pending => PResult.pending

/-- The readiness promise built at src/unnamed/part_000 lines 137-193: the
outer promise's resolve is invoked only from the fulfillment handler of
Promise.all(prereqPromises); no handler ever calls reject, so any other
outcome of the barrier leaves the outer promise pending. -/
def setupPrereqsPromise (prereqPromises : List (PResult Unit)) : PResult Unit :=
  match promiseAll prereqPromises with
  | PResult.resolved _ => PResult.resolved ()
  | _ => PResult.pending

lemma promiseAll_cons_resolved (p : PResult Unit) (ps : List (PResult Unit))
    (vs : List Unit) (h : promiseAll (p :: ps) = PResult.resolved vs) :
    p = PResult.resolved () ∧ ∃ vs2, promiseAll ps = PResult.resolved vs2 := by
  cases p with
  | resolved v =>
      cases v
      rcases hvs2 : promiseAll ps with vs2 | e2 | _ <;>
        simp [promiseAll, hvs2] at h
      exact ⟨rfl, vs2, rfl⟩
  | rejected e => simp [promiseAll] at h
  | pending =>
      rcases hvs2 : promiseAll ps with vs2 | e2 | _ <;>
        simp [promiseAll, hvs2] at h

lemma promiseAll_resolved_iff (ps : List (PResult Unit)) :
    (∃ vs, promiseAll ps = PResult.resolved vs) ↔
      ∀ p ∈ ps, p = PResult.resolved () := by
  induction ps with
  | nil => simp [promiseAll]
  | cons p ps ih =>
      constructor
      · rintro ⟨vs, hvs⟩ q hq
        obtain ⟨hp, vs2, hvs2⟩ := promiseAll_cons_resolved p ps vs hvs
        rcases List.mem_cons.mp hq with hq | hq
        · subst hq; exact hp
        · exact ih.mp ⟨vs2, hvs2⟩ q hq
      · intro hall
        have hp : p = PResult.resolved () := hall p (List.mem_cons_self p ps)
        obtain ⟨vs, hvs⟩ := ih.mpr (fun q hq => hall q (List.mem_cons_of_mem p hq))
        subst hp
        exact ⟨() :: vs, by simp [promiseAll, hvs]⟩

lemma promiseAll_rejected_of_mem (ps : List (PResult Unit))
    (h : ∃ p ∈ ps, ∃ e, p = PResult.rejected e) :
    ∃ e, promiseAll ps = PResult.rejected e := by
  induction ps with
  | nil => simp at h
  | cons p ps ih =>
      rcases h with ⟨q, hq, e, hqe⟩
      rcases List.mem_cons.mp hq with hq | hq
      · subst hq; subst hqe
        exact ⟨e, rfl⟩
      · by_cases hp : ∃ e2, p = PResult.rejected e2
        · obtain ⟨e2, hp⟩ := hp
          subst hp
          exact ⟨e2, rfl⟩
        · obtain ⟨e3, he3⟩ := ih ⟨q, hq, e, hqe⟩
          cases p with
          | resolved v => exact ⟨e3, by simp [promiseAll, he3]⟩
          | rejected e2 => exact absurd ⟨e2, rfl⟩ hp
          | pending => exact ⟨e3, by simp [promiseAll, he3]⟩

/-- Counterexample to C5: with a single failing load, the readiness promise
is not rejected with that failure; it stays pending (the rejection of
Promise.all is never propagated to the outer promise's reject). -/
theorem c5_counterexample :
    setupPrereqsPromise [PResult.rejected "load failed"]
        ≠ PResult.rejected "load failed" ∧
    setupPrereqsPromise [PResult.rejected "load failed"] = PResult.pending ∧
    promiseAll [(PResult.rejected "load failed" : PResult Unit)]
        = PResult.rejected "load failed" := by
  refine ⟨?_, rfl, rfl⟩
  decide

/-- C5 (amended): the readiness promise resolves exactly when every
individual load has resolved, and when any load fails it never settles
(it is left pending rather than rejected with the first rejection), so
scene assembly still never starts on partial failure. -/
theorem c5_all_or_nothing (ps : List (PResult Unit)) :
    (setupPrereqsPromise ps = PResult.resolved () ↔
      ∀ p ∈ ps, p = PResult.resolved ()) ∧
    ((∃ p ∈ ps, ∃ e, p = PResult.rejected e) →
      setupPrereqsPromise ps = PResult.pending) := by
  constructor
  · constructor
    · intro h
      unfold setupPrereqsPromise at h
      rcases hvs : promiseAll ps with vs | e | _
      · exact (promiseAll_resolved_iff ps).mp ⟨vs, hvs⟩
      · rw [hvs] at h; simp at h
      · rw [hvs] at h; simp at h
    · intro hall
      obtain ⟨vs, hvs⟩ := (promiseAll_resolved_iff ps).mpr hall
      unfold setupPrereqsPromise
      rw [hvs]
  · intro h
    obtain ⟨e, he⟩ := promiseAll_rejected_of_mem ps h
    unfold setupPrereqsPromise
    rw [he]

/-- Witness for C5 (amended): two successful loads give a resolved
readiness promise. -/
theorem c5_all_or_nothing_witness :
    setupPrereqsPromise [PResult.resolved (), PResult.resolved ()]
      = PResult.resolved () :=
  (c5_all_or_nothing [PResult.resolved (), PResult.resolved ()]).1.mpr
    (by decide)

/-! ### setupScene control flow (C6)

Scene.prototype.setupScene of the latest iteration (src/scene.js lines
214-471) is a plain synchronous function: it constructs components and
wires behaviors inline, and defers work to promise fulfillment handlers
only through prepare().then(...) chains and one mesh load.  We record its
effects as an ordered step list: a step is either executed before the
function returns, or registered in a promise handler that runs after
return. -/

/-- An elementary effect of setupScene: constructing a drawable object,
wiring a behavior function onto an object, adding an object to the scene,
or attaching a child drawable. -/
inductive BasicStep where
  | constructObj (label : String)
  | wireBehavior (objLabel : String) (behaviorLabel : String)
  | addObjectToScene (label : String)
  | addChild (parentLabel : String) (childLabel : String)
deriving DecidableEq, Repr

/-- A step of setupScene: either run synchronously before the function
returns, or deferred into a promise fulfillment handler. -/
inductive SetupStep where
  | now (step : BasicStep)
  | promiseThen (deferred : List BasicStep)
deriving DecidableEq, Repr

/-- The ordered effects of Scene.prototype.setupScene (src/scene.js lines
214-471): floor (line 228), raft with its followPlayer behavior (line 265),
cursor with its revolve behavior (lines 285-301), the two controller
components with their behaviors (lines 386-402), the two glyphtext objects
(lines 411-455), and the FontAwesome icon mesh, which is constructed and
attached only inside the fulfillment handler of the mesh load started at
line 447.  Each prepare().then chain defers the scene insertion. -/
def setupSceneSteps : List SetupStep :=
  [ SetupStep.now (BasicStep.constructObj "floor"),
    SetupStep.promiseThen [BasicStep.addObjectToScene "floor"],
    SetupStep.now (BasicStep.constructObj "raft"),
    SetupStep.now (BasicStep.wireBehavior "raft" "followPlayer"),
    SetupStep.promiseThen [BasicStep.addObjectToScene "raft"],
    SetupStep.now (BasicStep.constructObj "cursor"),
    SetupStep.now (BasicStep.wireBehavior "cursor" "revolve"),
    SetupStep.promiseThen [BasicStep.addObjectToScene "cursor"],
    SetupStep.now (BasicStep.constructObj "c0"),
    SetupStep.now (BasicStep.wireBehavior "c0" "tracker"),
    SetupStep.now (BasicStep.wireBehavior "c0" "rayProjector"),
    SetupStep.now (BasicStep.wireBehavior "c0" "buttonHandler"),
    SetupStep.promiseThen [BasicStep.addObjectToScene "c0"],
    SetupStep.now (BasicStep.constructObj "c1"),
    SetupStep.now (BasicStep.wireBehavior "c1" "tracker"),
    SetupStep.promiseThen [BasicStep.addObjectToScene "c1"],
    SetupStep.now (BasicStep.constructObj "text1"),
    SetupStep.promiseThen [BasicStep.addObjectToScene "text1"],
    SetupStep.now (BasicStep.constructObj "text2"),
    SetupStep.promiseThen
      [BasicStep.constructObj "fbIcon", BasicStep.addChild "text2" "fbIcon"],
    SetupStep.promiseThen [BasicStep.addObjectToScene "text2"] ]

/-- Labels of the objects constructed before setupScene returns. -/
def constructedBeforeReturn (steps : List SetupStep) : List String :=
  steps.filterMap (fun s =>
    match s with
    | SetupStep.now (BasicStep.constructObj l) => some l
    | _ => none)

/-- Labels of the objects constructed in deferred promise handlers. -/
def constructedDeferred (steps : List SetupStep) : List String :=
  (steps.filterMap (fun s =>
    match s with
    | SetupStep.promiseThen ds => some (ds.filterMap (fun d =>
        match d with
        | BasicStep.constructObj l => some l
        | _ => none))
    | _ => none)).flatten

/-- Labels of every object the scene eventually constructs. -/
def constructedEventually (steps : List SetupStep) : List String :=
  constructedBeforeReturn steps ++ constructedDeferred steps

/-- Counterexample to C6: the FontAwesome icon drawable belongs to the
scene's eventually constructed objects but is not constructed before
setupScene returns; it is built inside the mesh-load fulfillment handler
(src/scene.js lines 447-454), after setupScene has returned. -/
theorem c6_counterexample :
    "fbIcon" ∈ constructedEventually setupSceneSteps ∧
    "fbIcon" ∉ constructedBeforeReturn setupSceneSteps := by
  constructor <;> decide

/-- C6 (amended): setupScene synchronously constructs the floor, raft,
cursor, both controllers and both glyphtext objects and wires their
behaviors before returning, each exactly once (straight-line code, no
retry); only the FontAwesome icon drawable is constructed after return,
in a deferred mesh-load fulfillment handler. -/
theorem c6_sync_construction :
    "floor" ∈ constructedBeforeReturn setupSceneSteps ∧
    "raft" ∈ constructedBeforeReturn setupSceneSteps ∧
    "cursor" ∈ constructedBeforeReturn setupSceneSteps ∧
    "c0" ∈ constructedBeforeReturn setupSceneSteps ∧
    "c1" ∈ constructedBeforeReturn setupSceneSteps ∧
    "text1" ∈ constructedBeforeReturn setupSceneSteps ∧
    "text2" ∈ constructedBeforeReturn setupSceneSteps ∧
    SetupStep.now (BasicStep.wireBehavior "raft" "followPlayer")
      ∈ setupSceneSteps ∧
    SetupStep.now (BasicStep.wireBehavior "cursor" "revolve")
      ∈ setupSceneSteps ∧
    SetupStep.now (BasicStep.wireBehavior "c0" "tracker") ∈ setupSceneSteps ∧
    SetupStep.now (BasicStep.wireBehavior "c0" "rayProjector")
      ∈ setupSceneSteps ∧
    SetupStep.now (BasicStep.wireBehavior "c0" "buttonHandler")
      ∈ setupSceneSteps ∧
    SetupStep.now (BasicStep.wireBehavior "c1" "tracker") ∈ setupSceneSteps ∧
    (constructedEventually setupSceneSteps).Nodup ∧
    constructedDeferred setupSceneSteps = ["fbIcon"] := by
  refine ⟨?_, ?_, ?_, ?_, ?_, ?_, ?_, ?_, ?_, ?_, ?_, ?_, ?_, ?_, ?_⟩ <;>
    decide

/-! ### The raft geometry (C7)

src/scene.js lines 251-281: stageExtent halves the stage parameters; the
raft partition is configured with position (0, 0, 0), size bounds
minX = -1 * stageExtent.x .. maxX = stageExtent.x and
minY = -1 * stageExtent.z .. maxY = stageExtent.z, and an orientation of
DEG(270) about the x axis.

Modelled from the spec: the partition shape itself is engine code not
present in src/; per the spec's data model a partition with those size
bounds is the flat rectangle of points (u, v, 0) within the bounds, which
the engine places by rotating by the configured orientation and
translating to the configured position. -/

/-- stageExtent (src/scene.js lines 253-256): half the stage size along
x and z. -/
noncomputable def stageExtent (sizeX sizeZ : ℝ) : ℝ × ℝ := (sizeX / 2, sizeZ / 2)

/-- The size bounds record passed to the partition component. -/
structure SizeBounds where
  minX : ℝ
  maxX : ℝ
  minY : ℝ
  maxY : ℝ

/-- The raft's size bounds (src/scene.js line 271). -/
noncomputable def raftSize (sizeX sizeZ : ℝ) : SizeBounds :=
  { minX := -1 * (stageExtent sizeX sizeZ).1
    maxX := (stageExtent sizeX sizeZ).1
    minY := -1 * (stageExtent sizeX sizeZ).2
    maxY := (stageExtent sizeX sizeZ).2 }

/-- The raft's configured position (src/scene.js line 269). -/
def raftPosition : ℝ × ℝ × ℝ := (0, 0, 0)

/-- The raft's configured orientation about the x axis
(src/scene.js line 270). -/
noncomputable def raftOrientationX : ℝ := DEG 270

/-- Modelled from the spec: the local point set of a partition with the
given size bounds, before the engine transforms it. -/
def partitionLocalPoints (b : SizeBounds) : Set (ℝ × ℝ × ℝ) :=
  {p | ∃ u v, b.minX ≤ u ∧ u ≤ b.maxX ∧ b.minY ≤ v ∧ v ≤ b.maxY ∧
    p = (u, v, 0)}

/-- Rotation about the x axis by angle theta. -/
noncomputable def rotateX (theta : ℝ) (p : ℝ × ℝ × ℝ) : ℝ × ℝ × ℝ :=
  (p.1, Real.cos theta * p.2.1 - Real.sin theta * p.2.2,
   Real.sin theta * p.2.1 + Real.cos theta * p.2.2)

/-- Translation in 3-space. -/
def translate3 (t p : ℝ × ℝ × ℝ) : ℝ × ℝ × ℝ :=
  (t.1 + p.1, t.2.1 + p.2.1, t.2.2 + p.2.2)

/-- Modelled from the spec: the world region covered by the raft, obtained
by rotating the local partition rectangle by the configured orientation and
translating it to the configured position. -/
noncomputable def raftWorldRegion (sizeX sizeZ : ℝ) : Set (ℝ × ℝ × ℝ) :=
  Set.image (fun p => translate3 raftPosition (rotateX raftOrientationX p))
    (partitionLocalPoints (raftSize sizeX sizeZ))

lemma raftOrientationX_eq : raftOrientationX = Real.pi + Real.pi / 2 := by
  unfold raftOrientationX DEG
  ring

lemma cos_raftOrientationX : Real.cos raftOrientationX = 0 := by
  rw [raftOrientationX_eq]
  simp [Real.cos_add]

lemma sin_raftOrientationX : Real.sin raftOrientationX = -1 := by
  rw [raftOrientationX_eq]
  simp [Real.sin_add]

lemma raftMap_apply (u v : ℝ) :
    translate3 raftPosition (rotateX raftOrientationX (u, v, 0))
      = (u, 0, -v) := by
  simp [translate3, rotateX, raftPosition, cos_raftOrientationX,
    sin_raftOrientationX]

/-- C7: for every stage parameter pair, the raft covers exactly the
rectangle centered on the origin in the floor plane that extends sizeX / 2
in both directions along the world x axis and sizeZ / 2 in both directions
along the world z axis. -/
theorem c7_raft_matches_play_area (sizeX sizeZ : ℝ) :
    raftWorldRegion sizeX sizeZ =
      {p : ℝ × ℝ × ℝ |
        |p.1| ≤ sizeX / 2 ∧ p.2.1 = 0 ∧ |p.2.2| ≤ sizeZ / 2} := by
  ext p
  obtain ⟨p1, p2, p3⟩ := p
  simp only [raftWorldRegion, Set.mem_image, partitionLocalPoints,
    Set.mem_setOf_eq, raftSize, stageExtent]
  constructor
  · rintro ⟨q, ⟨u, v, h1, h2, h3, h4, rfl⟩, hq⟩
    rw [raftMap_apply] at hq
    obtain ⟨rfl, rfl, rfl⟩ := Prod.mk.injEq .. ▸ hq
    refine ⟨abs_le.mpr ⟨by linarith, h2⟩, rfl, ?_⟩
    rw [abs_neg]
    exact abs_le.mpr ⟨by linarith, h4⟩
  · rintro ⟨hx, rfl, hz⟩
    refine ⟨(p1, -p3, 0), ⟨p1, -p3, ?_, ?_, ?_, ?_, rfl⟩, ?_⟩
    · linarith [(abs_le.mp hx).1]
    · exact (abs_le.mp hx).2
    · linarith [(abs_le.mp hz).2]
    · linarith [(abs_le.mp hz).1]
    · rw [raftMap_apply]
      simp

/-! ### Prerequisite loading gates scene assembly (C1)

Modelled from the spec: the framework driver that runs init() and setup()
(calling loadPrerequisites on scene.prerequisites, then waiting on the
setupPrereqs promise, then calling setupScene) is engine code not present
in src/.  The spec gives its life cycle as
  Unloaded -> Loading -> Ready -> Assembled -> Rendering
with the Loading -> Ready transition allowed only once every declared
asset has resolved, and setupScene (scene assembly) invoked only from
Ready.  We model a manifest of n declared assets and the driver as a step
relation over that life cycle. -/

/-- The life-cycle phase of the scene driver, as given by the spec. -/
inductive Phase where
  | unloaded
  | loading
  | ready
  | assembled
  | rendering
deriving DecidableEq, Repr

/-- Modelled from the spec: the driver state for a manifest of n declared
assets, recording the phase and which assets have resolved. -/
structure DriverState (n : Nat) where
  phase : Phase
  resolved : Fin n → Bool

/-- Modelled from the spec: one step of the framework driver.  Assets
resolve one at a time during loading; loading finishes only when every
declared asset has resolved; scene assembly (setupScene) begins only from
the ready phase. -/
inductive DriverStep (n : Nat) : DriverState n → DriverState n → Prop where
  | startLoading (r : Fin n → Bool) :
      DriverStep n ⟨Phase.unloaded, r⟩ ⟨Phase.loading, r⟩
  | resolveAsset (r : Fin n → Bool) (i : Fin n) :
      DriverStep n ⟨Phase.loading, r⟩ ⟨Phase.loading, Function.update r i true⟩
  | finishLoading (r : Fin n → Bool) (h : ∀ i, r i = true) :
      DriverStep n ⟨Phase.loading, r⟩ ⟨Phase.ready, r⟩
  | beginAssembly (r : Fin n → Bool) :
      DriverStep n ⟨Phase.ready, r⟩ ⟨Phase.assembled, r⟩
  | startRendering (r : Fin n → Bool) :
      DriverStep n ⟨Phase.assembled, r⟩ ⟨Phase.rendering, r⟩

/-- Modelled from the spec: the states the driver can reach from the
initial state (unloaded, nothing resolved). -/
inductive DriverReachable (n : Nat) : DriverState n → Prop where
  | init : DriverReachable n ⟨Phase.unloaded, fun _ => false⟩
  | step {s t : DriverState n} :
      DriverReachable n s → DriverStep n s t → DriverReachable n t

lemma driver_invariant {n : Nat} {s : DriverState n}
    (h : DriverReachable n s) :
    (s.phase = Phase.ready ∨ s.phase = Phase.assembled ∨
      s.phase = Phase.rendering) → ∀ i, s.resolved i = true := by
  induction h with
  | init => intro hp; exact absurd hp (by simp)
  | step hr hstep ih =>
      cases hstep with
      | startLoading r => intro hp; exact absurd hp (by simp)
      | resolveAsset r i => intro hp; exact absurd hp (by simp)
      | finishLoading r h => exact fun _ => h
      | beginAssembly r => exact fun _ => ih (Or.inl rfl)
      | startRendering r => exact fun _ => ih (Or.inr (Or.inl rfl))

/-- C1: for every manifest of declared assets, scene assembly never begins
before every declared asset has resolved: in every reachable driver state
in which assembly has begun (assembled or rendering), every declared asset
is resolved, the prerequisite-loading phase gating assembly. -/
theorem c1_assembly_gated_on_assets {n : Nat} (s : DriverState n)
    (h : DriverReachable n s)
    (hp : s.phase = Phase.assembled ∨ s.phase = Phase.rendering) :
    ∀ i : Fin n, s.resolved i = true :=
  driver_invariant h (Or.inr hp)

/-- Witness for C1: a two-asset manifest is driven through loading, both
resolutions, readiness and assembly; in the assembled state both assets
are resolved. -/
theorem c1_assembly_gated_on_assets_witness :
    (⟨Phase.assembled,
        Function.update (Function.update (fun _ => false) (0 : Fin 2) true)
          (1 : Fin 2) true⟩ : DriverState 2).resolved 0 = true :=
  c1_assembly_gated_on_assets _
    (DriverReachable.step
      (DriverReachable.step
        (DriverReachable.step
          (DriverReachable.step
            (DriverReachable.step DriverReachable.init
              (DriverStep.startLoading _))
            (DriverStep.resolveAsset _ 0))
          (DriverStep.resolveAsset _ 1))
        (DriverStep.finishLoading _ (by decide)))
      (DriverStep.beginAssembly _))
    (Or.inl rfl) 0
